import Mathlib

/-!
# Verification of the TechTresses freelancer tax/invoice services

Shallow embedding of the arithmetic core of the repository:

* `TaxService` (`calculateIncomeTax`, `applyTDS`, `checkGSTThreshold`,
  `getAdvanceTaxDue`, `calculateDeductions`, `calculateTax`),
* `InvoiceService.addInvoiceContent` (the amount arithmetic of the PDF path),
* `InvoiceController.getInvoicePreview` and
  `TaxController.getTaxRegimeComparison`.

JavaScript numbers are modelled as exact rationals (`ℚ`); `Math.round`
rounds half toward positive infinity, i.e. `⌊x + 1/2⌋`.  Database access,
PDF layout and display-only string formatting (`toLocaleString`,
`toFixed`) carry no arithmetic content and are not modelled; the
functions below take the data the JavaScript code reads from the request
or the database as explicit arguments.
-/

namespace TechTresses

/-- JavaScript `Math.round`: rounds to the nearest integer, halves toward
positive infinity. -/
def jsRound (x : ℚ) : ℤ := ⌊x + 1/2⌋

/-- The pre-rounding slab expression of `TaxService.calculateIncomeTax`
(the value of the mutable `tax` variable just before `Math.round`). -/
def incomeTaxPre (totalIncome : ℚ) : ℚ :=
  if totalIncome ≤ 250000 then 0
  else if totalIncome ≤ 500000 then (totalIncome - 250000) * (5/100)
  else if totalIncome ≤ 750000 then 12500 + (totalIncome - 500000) * (10/100)
  else if totalIncome ≤ 1000000 then 37500 + (totalIncome - 750000) * (15/100)
  else if totalIncome ≤ 1250000 then 75000 + (totalIncome - 1000000) * (20/100)
  else if totalIncome ≤ 1500000 then 125000 + (totalIncome - 1250000) * (25/100)
  else 187500 + (totalIncome - 1500000) * (30/100)

/-- `TaxService.calculateIncomeTax`: new-regime slab tax, rounded. -/
def calculateIncomeTax (totalIncome : ℚ) : ℤ :=
  jsRound (incomeTaxPre totalIncome)

/-- `TaxService.applyTDS`: 10% tax deducted at source, rounded. -/
def applyTDS (amount : ℚ) : ℤ := jsRound (amount * (10/100))

/-- `TaxService.checkGSTThreshold`: GST registration threshold of 20 lakhs. -/
def checkGSTThreshold (totalIncome : ℚ) : Bool := decide (2000000 < totalIncome)

/-- The portion of income `x` falling inside the band `(lo, hi]`;
used to state the spec's "marginal rate applied only to the portion of
income within that band" reading of the slab formula. -/
def slabPortion (x lo hi : ℚ) : ℚ := min (max (x - lo) 0) (hi - lo)

/-- The spec's per-band reading of the new-regime tax: each slab's
marginal rate applied to the portion of income within that band. -/
def slabTaxSpec (x : ℚ) : ℚ :=
  (5/100) * slabPortion x 250000 500000
  + (10/100) * slabPortion x 500000 750000
  + (15/100) * slabPortion x 750000 1000000
  + (20/100) * slabPortion x 1000000 1250000
  + (25/100) * slabPortion x 1250000 1500000
  + (30/100) * max (x - 1500000) 0

theorem slabPortion_of_le {x lo hi : ℚ} (h : x ≤ lo) (hlh : lo ≤ hi) :
    slabPortion x lo hi = 0 := by
  unfold slabPortion
  rw [max_eq_right (by linarith), min_eq_left (by linarith)]

theorem slabPortion_of_ge {x lo hi : ℚ} (h : hi ≤ x) (hlh : lo ≤ hi) :
    slabPortion x lo hi = hi - lo := by
  unfold slabPortion
  rw [max_eq_left (by linarith), min_eq_right (by linarith)]

theorem slabPortion_of_mem {x lo hi : ℚ} (h1 : lo ≤ x) (h2 : x ≤ hi) :
    slabPortion x lo hi = x - lo := by
  unfold slabPortion
  rw [max_eq_left (by linarith), min_eq_left (by linarith)]

theorem incomeTaxPre_eq_slabTaxSpec (x : ℚ) : incomeTaxPre x = slabTaxSpec x := by
  unfold incomeTaxPre slabTaxSpec
  split_ifs with h1 h2 h3 h4 h5 h6
  · rw [slabPortion_of_le (by linarith) (by norm_num),
        slabPortion_of_le (by linarith) (by norm_num),
        slabPortion_of_le (by linarith) (by norm_num),
        slabPortion_of_le (by linarith) (by norm_num),
        slabPortion_of_le (by linarith) (by norm_num),
        max_eq_right (by linarith)]
    ring
  · rw [slabPortion_of_mem (by linarith) (by linarith),
        slabPortion_of_le (by linarith) (by norm_num),
        slabPortion_of_le (by linarith) (by norm_num),
        slabPortion_of_le (by linarith) (by norm_num),
        slabPortion_of_le (by linarith) (by norm_num),
        max_eq_right (by linarith)]
    ring
  · rw [slabPortion_of_ge (by linarith) (by norm_num),
        slabPortion_of_mem (by linarith) (by linarith),
        slabPortion_of_le (by linarith) (by norm_num),
        slabPortion_of_le (by linarith) (by norm_num),
        slabPortion_of_le (by linarith) (by norm_num),
        max_eq_right (by linarith)]
    ring
  · rw [slabPortion_of_ge (by linarith) (by norm_num),
        slabPortion_of_ge (by linarith) (by norm_num),
        slabPortion_of_mem (by linarith) (by linarith),
        slabPortion_of_le (by linarith) (by norm_num),
        slabPortion_of_le (by linarith) (by norm_num),
        max_eq_right (by linarith)]
    ring
  · rw [slabPortion_of_ge (by linarith) (by norm_num),
        slabPortion_of_ge (by linarith) (by norm_num),
        slabPortion_of_ge (by linarith) (by norm_num),
        slabPortion_of_mem (by linarith) (by linarith),
        slabPortion_of_le (by linarith) (by norm_num),
        max_eq_right (by linarith)]
    ring
  · rw [slabPortion_of_ge (by linarith) (by norm_num),
        slabPortion_of_ge (by linarith) (by norm_num),
        slabPortion_of_ge (by linarith) (by norm_num),
        slabPortion_of_ge (by linarith) (by norm_num),
        slabPortion_of_mem (by linarith) (by linarith),
        max_eq_right (by linarith)]
    ring
  · rw [slabPortion_of_ge (by linarith) (by norm_num),
        slabPortion_of_ge (by linarith) (by norm_num),
        slabPortion_of_ge (by linarith) (by norm_num),
        slabPortion_of_ge (by linarith) (by norm_num),
        slabPortion_of_ge (by linarith) (by norm_num),
        max_eq_left (by linarith)]
    ring

theorem slabPortion_mono (a b : ℚ) {x y : ℚ} (h : x ≤ y) :
    slabPortion x a b ≤ slabPortion y a b :=
  min_le_min (max_le_max (by linarith) le_rfl) le_rfl

theorem slabPortion_sub_le (a b : ℚ) {x y : ℚ} (h : x ≤ y) :
    slabPortion y a b - slabPortion x a b ≤ y - x := by
  unfold slabPortion
  simp only [min_def, max_def]
  split_ifs <;> linarith

theorem maxSub_mono (c : ℚ) {x y : ℚ} (h : x ≤ y) :
    max (x - c) 0 ≤ max (y - c) 0 :=
  max_le_max (by linarith) le_rfl

theorem maxSub_sub_le (c : ℚ) {x y : ℚ} (h : x ≤ y) :
    max (y - c) 0 - max (x - c) 0 ≤ y - x := by
  simp only [max_def]
  split_ifs <;> linarith

theorem incomeTaxPre_mono {x y : ℚ} (h : x ≤ y) : incomeTaxPre x ≤ incomeTaxPre y := by
  rw [incomeTaxPre_eq_slabTaxSpec, incomeTaxPre_eq_slabTaxSpec]
  unfold slabTaxSpec
  have h1 := slabPortion_mono 250000 500000 h
  have h2 := slabPortion_mono 500000 750000 h
  have h3 := slabPortion_mono 750000 1000000 h
  have h4 := slabPortion_mono 1000000 1250000 h
  have h5 := slabPortion_mono 1250000 1500000 h
  have h6 := maxSub_mono 1500000 h
  linarith

theorem incomeTaxPre_sub_le {x y : ℚ} (h : x ≤ y) :
    incomeTaxPre y - incomeTaxPre x ≤ 2 * (y - x) := by
  rw [incomeTaxPre_eq_slabTaxSpec, incomeTaxPre_eq_slabTaxSpec]
  unfold slabTaxSpec
  have h1 := slabPortion_sub_le 250000 500000 h
  have h2 := slabPortion_sub_le 500000 750000 h
  have h3 := slabPortion_sub_le 750000 1000000 h
  have h4 := slabPortion_sub_le 1000000 1250000 h
  have h5 := slabPortion_sub_le 1250000 1500000 h
  have h6 := maxSub_sub_le 1500000 h
  have g1 := slabPortion_mono 250000 500000 h
  have g2 := slabPortion_mono 500000 750000 h
  have g3 := slabPortion_mono 750000 1000000 h
  have g4 := slabPortion_mono 1000000 1250000 h
  have g5 := slabPortion_mono 1250000 1500000 h
  have g6 := maxSub_mono 1500000 h
  linarith

theorem jsRound_mono {x y : ℚ} (h : x ≤ y) : jsRound x ≤ jsRound y :=
  Int.floor_le_floor (by linarith)

theorem calculateIncomeTax_mono {x y : ℚ} (h : x ≤ y) :
    calculateIncomeTax x ≤ calculateIncomeTax y :=
  jsRound_mono (incomeTaxPre_mono h)

theorem incomeTaxPre_continuousAt (b ε : ℚ) (hε : 0 < ε) :
    ∃ δ : ℚ, 0 < δ ∧ ∀ x : ℚ, |x - b| < δ →
      |incomeTaxPre x - incomeTaxPre b| < ε := by
  refine ⟨ε/2, by linarith, fun x hx => ?_⟩
  rw [abs_lt] at hx
  rcases le_total x b with hxb | hxb
  · have h1 := incomeTaxPre_mono hxb
    have h2 := incomeTaxPre_sub_le hxb
    rw [abs_of_nonpos (by linarith)]
    linarith
  · have h1 := incomeTaxPre_mono hxb
    have h2 := incomeTaxPre_sub_le hxb
    rw [abs_of_nonneg (by linarith)]
    linarith

/-- The seven branch expressions of the if/else chain inside
`TaxService.calculateIncomeTax`, indexed in source order. -/
def slabBranch (i : ℕ) (x : ℚ) : ℚ :=
  match i with
  | 0 => 0
  | 1 => (x - 250000) * (5/100)
  | 2 => 12500 + (x - 500000) * (10/100)
  | 3 => 37500 + (x - 750000) * (15/100)
  | 4 => 75000 + (x - 1000000) * (20/100)
  | 5 => 125000 + (x - 1250000) * (25/100)
  | _ => 187500 + (x - 1500000) * (30/100)

/-- The six slab boundaries between consecutive branches. -/
def slabBoundary (i : ℕ) : ℚ :=
  match i with
  | 0 => 250000
  | 1 => 500000
  | 2 => 750000
  | 3 => 1000000
  | 4 => 1250000
  | _ => 1500000

/-- Which branch of the if/else chain an income selects. -/
def slabIndex (x : ℚ) : ℕ :=
  if x ≤ 250000 then 0
  else if x ≤ 500000 then 1
  else if x ≤ 750000 then 2
  else if x ≤ 1000000 then 3
  else if x ≤ 1250000 then 4
  else if x ≤ 1500000 then 5
  else 6

theorem incomeTaxPre_eq_branch (x : ℚ) :
    incomeTaxPre x = slabBranch (slabIndex x) x := by
  unfold incomeTaxPre slabIndex
  split_ifs <;> rfl

/-- C1: for every non-negative income, `calculateIncomeTax` is the rounded
sum of the marginal rates applied to the portion of income in each of the
seven fixed bands (the cumulative-offset piecewise form of the source),
and it takes the six stated concrete values. -/
theorem claim_C1 :
    (∀ x : ℚ, 0 ≤ x → calculateIncomeTax x = jsRound (slabTaxSpec x)) ∧
    calculateIncomeTax 0 = 0 ∧
    calculateIncomeTax 250000 = 0 ∧
    calculateIncomeTax 500000 = 12500 ∧
    calculateIncomeTax 1000000 = 75000 ∧
    calculateIncomeTax 1500000 = 187500 ∧
    calculateIncomeTax 2000000 = 337500 := by
  refine ⟨fun x _ => by rw [calculateIncomeTax, incomeTaxPre_eq_slabTaxSpec],
    ?_, ?_, ?_, ?_, ?_, ?_⟩ <;>
    norm_num [calculateIncomeTax, incomeTaxPre, jsRound]

/-- Witness for C1 at the concrete income 600000. -/
theorem claim_C1_witness :
    (0:ℚ) ≤ 600000 ∧ calculateIncomeTax 600000 = jsRound (slabTaxSpec 600000) :=
  ⟨by norm_num, claim_C1.1 600000 (by norm_num)⟩

/-- C7: `calculateIncomeTax` is monotone non-decreasing on non-negative
incomes; the pre-rounding slab formula is exactly the branch selected by
`slabIndex`; adjacent branch expressions agree at each of the six slab
boundaries; and the pre-rounding formula is ε-δ continuous at each
boundary, so there is no jump discontinuity. -/
theorem claim_C7 :
    (∀ x y : ℚ, 0 ≤ x → x ≤ y → calculateIncomeTax x ≤ calculateIncomeTax y) ∧
    (∀ x : ℚ, incomeTaxPre x = slabBranch (slabIndex x) x) ∧
    (∀ i : ℕ, i < 6 → slabBranch i (slabBoundary i) = slabBranch (i + 1) (slabBoundary i)) ∧
    (∀ i : ℕ, i < 6 → ∀ ε : ℚ, 0 < ε → ∃ δ : ℚ, 0 < δ ∧
      ∀ x : ℚ, |x - slabBoundary i| < δ →
        |incomeTaxPre x - incomeTaxPre (slabBoundary i)| < ε) := by
  refine ⟨fun x y _ h => calculateIncomeTax_mono h, incomeTaxPre_eq_branch, ?_,
    fun i _ ε hε => incomeTaxPre_continuousAt (slabBoundary i) ε hε⟩
  intro i hi
  interval_cases i <;> norm_num [slabBranch, slabBoundary]

/-- Witness for C7 at concrete inputs. -/
theorem claim_C7_witness :
    calculateIncomeTax 300000 ≤ calculateIncomeTax 800000 ∧
    slabBranch 0 (slabBoundary 0) = slabBranch 1 (slabBoundary 0) ∧
    (∃ δ : ℚ, 0 < δ ∧ ∀ x : ℚ, |x - slabBoundary 2| < δ →
        |incomeTaxPre x - incomeTaxPre (slabBoundary 2)| < 1) :=
  ⟨claim_C7.1 300000 800000 (by norm_num) (by norm_num),
   claim_C7.2.2.1 0 (by norm_num),
   claim_C7.2.2.2 2 (by norm_num) 1 (by norm_num)⟩

/-- A deduction line produced by `TaxService.calculateDeductions`.
The field `sec` models the JavaScript field `section` (a Lean keyword). -/
structure Deduction where
  sec : String
  amount : ℚ
  description : String
  deriving DecidableEq

/-- The return object of `TaxService.calculateDeductions`. -/
structure DeductionsResult where
  recommendedDeductions : List Deduction
  totalDeductions : ℚ
  possibleSavings : ℤ
  taxableIncome : ℚ
  taxWithDeductions : ℤ
  deriving DecidableEq

/-- The business-expense loop of `calculateDeductions`: one line per
expense entry with a positive amount, in `Object.entries` insertion
order. -/
def businessExpenseLines (expenses : List (String × ℚ)) : List Deduction :=
  expenses.filterMap fun p =>
    if 0 < p.2 then some ⟨"Business Expense", p.2, p.1 ++ " - business expense"⟩ else none

/-- `TaxService.calculateDeductions`.  The mutable `current80C` variable is
threaded through as `c1`, `c2`, `c3`; the JavaScript `&&` conditions are
nested ifs. -/
def calculateDeductions (income : ℚ) (expenses : List (String × ℚ)) : DeductionsResult :=
  let max80C : ℚ := 150000
  let ppfAmount := min 50000 (max80C - 0)
  let ded1 : List Deduction :=
    if 300000 < income then
      [⟨"80C - PPF", ppfAmount, "Public Provident Fund contribution"⟩] else []
  let c1 : ℚ := if 300000 < income then 0 + ppfAmount else 0
  let elssAmount := min 60000 (max80C - c1)
  let ded2 : List Deduction :=
    if 400000 < income then
      (if c1 < max80C then [⟨"80C - ELSS", elssAmount, "Equity Linked Savings Scheme"⟩] else [])
    else []
  let c2 : ℚ :=
    if 400000 < income then (if c1 < max80C then c1 + elssAmount else c1) else c1
  let insuranceAmount := min 40000 (max80C - c2)
  let ded3 : List Deduction :=
    if 500000 < income then
      (if c2 < max80C then [⟨"80C - Life Insurance", insuranceAmount, "Life insurance premium"⟩] else [])
    else []
  let c3 : ℚ :=
    if 500000 < income then (if c2 < max80C then c2 + insuranceAmount else c2) else c2
  let businessDeds := businessExpenseLines expenses
  let homeOfficeAllowance : ℚ := (jsRound (income * (25/100)) : ℤ)
  let deductions := ded1 ++ ded2 ++ ded3 ++ businessDeds
      ++ [⟨"Home Office", homeOfficeAllowance, "Home office allowance (25% of income)"⟩]
  let totalDeductions := c3 + (businessDeds.map Deduction.amount).sum + homeOfficeAllowance
  let taxWithoutDeductions := calculateIncomeTax income
  let taxableIncome := max 0 (income - totalDeductions)
  let taxWithDeductions := calculateIncomeTax taxableIncome
  { recommendedDeductions := deductions
    totalDeductions := totalDeductions
    possibleSavings := taxWithoutDeductions - taxWithDeductions
    taxableIncome := taxableIncome
    taxWithDeductions := taxWithDeductions }

/-- The spec's greedy capped-bucket algorithm for the 150,000 cap: each
line only appears while the cap is not exhausted, and its amount is
limited by the remaining cap.  Returns the lines and the bucket total. -/
def cappedBucketSpec (income : ℚ) : List Deduction × ℚ :=
  let cap : ℚ := 150000
  let s1 : List Deduction × ℚ :=
    if 300000 < income then
      ([⟨"80C - PPF", min 50000 cap, "Public Provident Fund contribution"⟩], min 50000 cap)
    else ([], 0)
  let s2 : List Deduction × ℚ :=
    if 400000 < income then
      (if 0 < cap - s1.2 then
        (s1.1 ++ [⟨"80C - ELSS", min 60000 (cap - s1.2), "Equity Linked Savings Scheme"⟩],
         s1.2 + min 60000 (cap - s1.2))
       else s1)
    else s1
  let s3 : List Deduction × ℚ :=
    if 500000 < income then
      (if 0 < cap - s2.2 then
        (s2.1 ++ [⟨"80C - Life Insurance", min 40000 (cap - s2.2), "Life insurance premium"⟩],
         s2.2 + min 40000 (cap - s2.2))
       else s2)
    else s2
  s3

/-- The spec's reading of `calculateDeductions`: greedy capped bucket,
then one business-expense line per positive expense, then the home-office
line, with the stated derived fields. -/
def calculateDeductions_spec (income : ℚ) (expenses : List (String × ℚ)) : DeductionsResult :=
  let bucket := cappedBucketSpec income
  let businessDeds := businessExpenseLines expenses
  let homeOffice : ℚ := (jsRound (income * (25/100)) : ℤ)
  let totalDeductions := bucket.2 + (businessDeds.map Deduction.amount).sum + homeOffice
  let taxableIncome := max 0 (income - totalDeductions)
  { recommendedDeductions := bucket.1 ++ businessDeds
      ++ [⟨"Home Office", homeOffice, "Home office allowance (25% of income)"⟩]
    totalDeductions := totalDeductions
    possibleSavings := calculateIncomeTax income - calculateIncomeTax taxableIncome
    taxableIncome := taxableIncome
    taxWithDeductions := calculateIncomeTax taxableIncome }

theorem calculateDeductions_eq_spec (income : ℚ) (expenses : List (String × ℚ)) :
    calculateDeductions income expenses = calculateDeductions_spec income expenses := by
  simp only [calculateDeductions, calculateDeductions_spec, cappedBucketSpec]
  split_ifs <;>
    first
      | rfl
      | norm_num [min_def] at *

theorem businessExpenseLines_sec {e : List (String × ℚ)} {d : Deduction}
    (h : d ∈ businessExpenseLines e) : d.sec = "Business Expense" := by
  unfold businessExpenseLines at h
  rw [List.mem_filterMap] at h
  obtain ⟨a, _, ha⟩ := h
  by_cases h0 : 0 < a.2
  · rw [if_pos h0] at ha
    cases ha
    rfl
  · rw [if_neg h0] at ha
    exact Option.noConfusion ha

theorem calculateDeductions_lowIncome (income : ℚ) (expenses : List (String × ℚ))
    (h : income ≤ 300000) :
    (calculateDeductions income expenses).recommendedDeductions
      = businessExpenseLines expenses
        ++ [⟨"Home Office", ((jsRound (income * (25/100)) : ℤ) : ℚ),
            "Home office allowance (25% of income)"⟩] := by
  simp only [calculateDeductions]
  rw [if_neg (by linarith), if_neg (by linarith), if_neg (by linarith)]
  rfl

/-- C2 counterexample: at income 450000 with expenses
laptop 40000 and internet 12000, the total deductions are not the
claimed 214500 (the ELSS line is also added, since 450000 > 400000). -/
theorem claim_C2_counterexample :
    (calculateDeductions 450000 [("laptop", 40000), ("internet", 12000)]).totalDeductions
      ≠ 214500 := by
  norm_num [calculateDeductions, businessExpenseLines, jsRound,
    List.filterMap_cons, List.filterMap_nil, List.map_cons, List.map_nil,
    List.sum_cons, List.sum_nil]

/-- C2 (amended): for income 450000 and expenses laptop 40000,
internet 12000, `calculateDeductions` produces the capped-bucket lines
PPF 50000 and ELSS 60000, business lines 40000 and 12000, the
home-office line 112500, `totalDeductions = 274500`,
`taxableIncome = 175500`, and
`possibleSavings = calculateIncomeTax 450000 - calculateIncomeTax 175500 = 10000`. -/
theorem claim_C2 :
    (calculateDeductions 450000 [("laptop", 40000), ("internet", 12000)]).recommendedDeductions
        = [⟨"80C - PPF", 50000, "Public Provident Fund contribution"⟩,
           ⟨"80C - ELSS", 60000, "Equity Linked Savings Scheme"⟩,
           ⟨"Business Expense", 40000, "laptop - business expense"⟩,
           ⟨"Business Expense", 12000, "internet - business expense"⟩,
           ⟨"Home Office", 112500, "Home office allowance (25% of income)"⟩] ∧
    (calculateDeductions 450000 [("laptop", 40000), ("internet", 12000)]).totalDeductions
        = 274500 ∧
    (calculateDeductions 450000 [("laptop", 40000), ("internet", 12000)]).taxableIncome
        = 175500 ∧
    (calculateDeductions 450000 [("laptop", 40000), ("internet", 12000)]).possibleSavings
        = calculateIncomeTax 450000 - calculateIncomeTax 175500 ∧
    (calculateDeductions 450000 [("laptop", 40000), ("internet", 12000)]).possibleSavings
        = 10000 := by
  refine ⟨?_, ?_, ?_, ?_, ?_⟩ <;>
    norm_num [calculateDeductions, businessExpenseLines, jsRound, calculateIncomeTax,
      incomeTaxPre, List.filterMap_cons, List.filterMap_nil, List.map_cons, List.map_nil,
      List.sum_cons, List.sum_nil]
  refine ⟨?_, ?_⟩ <;> rfl

/-- C4: `calculateDeductions` agrees with the spec's greedy capped-bucket
algorithm (which also fixes the insertion order of the output list);
`taxableIncome = max 0 (income - totalDeductions)`;
`possibleSavings = calculateIncomeTax income - calculateIncomeTax taxableIncome`;
and when income ≤ 300000 every output line is a business-expense or
home-office line (no capped-bucket line appears). -/
theorem claim_C4 :
    (∀ (income : ℚ) (expenses : List (String × ℚ)),
      calculateDeductions income expenses = calculateDeductions_spec income expenses) ∧
    (∀ (income : ℚ) (expenses : List (String × ℚ)),
      (calculateDeductions income expenses).taxableIncome
          = max 0 (income - (calculateDeductions income expenses).totalDeductions) ∧
      (calculateDeductions income expenses).possibleSavings
          = calculateIncomeTax income
            - calculateIncomeTax ((calculateDeductions income expenses).taxableIncome)) ∧
    (∀ (income : ℚ) (expenses : List (String × ℚ)), income ≤ 300000 →
      ∀ d ∈ (calculateDeductions income expenses).recommendedDeductions,
        d.sec = "Business Expense" ∨ d.sec = "Home Office") := by
  refine ⟨calculateDeductions_eq_spec, fun income expenses => ⟨rfl, rfl⟩, ?_⟩
  intro income expenses h d hd
  rw [calculateDeductions_lowIncome income expenses h] at hd
  rcases List.mem_append.mp hd with hb | hh
  · exact Or.inl (businessExpenseLines_sec hb)
  · rw [List.mem_singleton] at hh
    subst hh
    exact Or.inr rfl

/-- Witness for C4 at income 250000 and a single rent expense. -/
theorem claim_C4_witness :
    calculateDeductions 250000 [("rent", (10000:ℚ))]
        = calculateDeductions_spec 250000 [("rent", 10000)] ∧
    ((⟨"Business Expense", 10000, "rent - business expense"⟩ : Deduction).sec
        = "Business Expense"
      ∨ (⟨"Business Expense", 10000, "rent - business expense"⟩ : Deduction).sec
        = "Home Office") :=
  ⟨claim_C4.1 250000 [("rent", 10000)],
   claim_C4.2.2 250000 [("rent", 10000)] (by norm_num)
     ⟨"Business Expense", 10000, "rent - business expense"⟩
     (by
        norm_num [calculateDeductions, businessExpenseLines, jsRound,
          List.filterMap_cons, List.filterMap_nil]
        rfl)⟩

/-- The return object of `TaxService.getAdvanceTaxDue`.  The JavaScript
`percentageDue` field carries the fraction multiplied by 100. -/
structure AdvanceTaxInfo where
  amountDue : ℤ
  nextDueDate : String
  percentageDue : ℚ
  deriving DecidableEq

/-- `TaxService.getAdvanceTaxDue`: a pure function of the current month
(1-indexed, as in the source after `getMonth() + 1`), the current year and
the estimated tax. -/
def getAdvanceTaxDue (currentMonth currentYear : ℕ) (estimatedTax : ℚ) : AdvanceTaxInfo :=
  let percentageDue : ℚ :=
    if currentMonth < 6 then 0
    else if currentMonth < 9 then 15/100
    else if currentMonth < 12 then 45/100
    else 75/100
  let nextDueDate : String :=
    if currentMonth < 6 then "June 15, " ++ toString currentYear
    else if currentMonth < 9 then "September 15, " ++ toString currentYear
    else if currentMonth < 12 then "December 15, " ++ toString currentYear
    else "March 15, " ++ toString (currentYear + 1)
  { amountDue := jsRound (estimatedTax * percentageDue)
    nextDueDate := nextDueDate
    percentageDue := percentageDue * 100 }

/-- C5: `getAdvanceTaxDue` returns 0% with "June 15" for January–May,
15% with "September 15" for June–August, 45% with "December 15" for
September–November, and 75% with "March 15" of the following year for
December, with `amountDue = round(estimatedTax * fraction)`; in
particular in July with estimated tax 10000 it returns 1500 due by
"September 15". -/
theorem claim_C5 :
    (∀ (m y : ℕ) (t : ℚ), 1 ≤ m → m ≤ 5 →
      getAdvanceTaxDue m y t
        = ⟨jsRound (t * 0), "June 15, " ++ toString y, 0⟩) ∧
    (∀ (m y : ℕ) (t : ℚ), 6 ≤ m → m ≤ 8 →
      getAdvanceTaxDue m y t
        = ⟨jsRound (t * (15/100)), "September 15, " ++ toString y, 15⟩) ∧
    (∀ (m y : ℕ) (t : ℚ), 9 ≤ m → m ≤ 11 →
      getAdvanceTaxDue m y t
        = ⟨jsRound (t * (45/100)), "December 15, " ++ toString y, 45⟩) ∧
    (∀ (y : ℕ) (t : ℚ),
      getAdvanceTaxDue 12 y t
        = ⟨jsRound (t * (75/100)), "March 15, " ++ toString (y + 1), 75⟩) ∧
    (∀ y : ℕ, getAdvanceTaxDue 7 y 10000
        = ⟨1500, "September 15, " ++ toString y, 15⟩) := by
  refine ⟨?_, ?_, ?_, ?_, ?_⟩
  · intro m y t _ h2
    simp only [getAdvanceTaxDue]
    rw [if_pos (by omega), if_pos (by omega)]
    norm_num
  · intro m y t h1 h2
    simp only [getAdvanceTaxDue]
    rw [if_neg (by omega), if_pos (by omega), if_neg (by omega), if_pos (by omega)]
    norm_num
  · intro m y t h1 h2
    simp only [getAdvanceTaxDue]
    rw [if_neg (by omega), if_neg (by omega), if_pos (by omega),
        if_neg (by omega), if_neg (by omega), if_pos (by omega)]
    norm_num
  · intro y t
    simp only [getAdvanceTaxDue]
    rw [if_neg (by omega), if_neg (by omega), if_neg (by omega),
        if_neg (by omega), if_neg (by omega), if_neg (by omega)]
    norm_num
  · intro y
    simp only [getAdvanceTaxDue]
    rw [if_neg (by omega), if_pos (by omega), if_neg (by omega), if_pos (by omega)]
    norm_num [jsRound]

/-- Witness for C5 in March and in July of a concrete year. -/
theorem claim_C5_witness :
    getAdvanceTaxDue 3 2025 10000
        = ⟨jsRound ((10000:ℚ) * 0), "June 15, " ++ toString (2025:ℕ), 0⟩ ∧
    getAdvanceTaxDue 7 2025 10000
        = ⟨1500, "September 15, " ++ toString (2025:ℕ), 15⟩ :=
  ⟨claim_C5.1 3 2025 10000 (by norm_num) (by norm_num),
   claim_C5.2.2.2.2 2025⟩

/-- The return object of `InvoiceController.getInvoicePreview`. -/
structure InvoicePreview where
  clientName : String
  basicAmount : ℚ
  gstApplicable : Bool
  gstAmount : ℤ
  tds : Bool
  tdsAmount : ℤ
  totalAmount : ℚ
  invoiceNumber : String
  date : String
  deriving DecidableEq

/-- `InvoiceController.getInvoicePreview` (the amount arithmetic of the
JSON preview path).  `Date.now()` and `toLocaleDateString` are passed in
as the arguments `now` and `dateStr`. -/
def getInvoicePreview (clientName : String) (amount : ℚ) (gstApplicable tds : Bool)
    (now : ℕ) (dateStr : String) : InvoicePreview :=
  let gstAmount : ℤ := if gstApplicable then jsRound (amount * (18/100)) else 0
  let totalAfterGST : ℚ :=
    if gstApplicable then amount + (jsRound (amount * (18/100)) : ℚ) else amount
  let tdsAmount : ℤ := if tds then jsRound (amount * (10/100)) else 0
  let totalAmount : ℚ :=
    if tds then totalAfterGST - (jsRound (amount * (10/100)) : ℚ) else totalAfterGST
  { clientName := clientName
    basicAmount := amount
    gstApplicable := gstApplicable
    gstAmount := gstAmount
    tds := tds
    tdsAmount := tdsAmount
    totalAmount := totalAmount
    invoiceNumber := "INV-" ++ toString now
    date := dateStr }

/-- The `totalAmount` printed by `InvoiceService.addInvoiceContent` (the
PDF path): start from `amount`, add rounded GST if applicable, then
subtract rounded TDS if applicable. -/
def addInvoiceContent_totalAmount (amount : ℚ) (gstApplicable tds : Bool) : ℚ :=
  let t1 := amount
  let t2 := if gstApplicable then t1 + (jsRound (amount * (18/100)) : ℚ) else t1
  if tds then t2 - (jsRound (amount * (10/100)) : ℚ) else t2

/-- The TDS amount printed by `addInvoiceContent` when `tds` is set. -/
def addInvoiceContent_tdsAmount (amount : ℚ) : ℤ := jsRound (amount * (10/100))

/-- The GST amount printed by `addInvoiceContent` when `gstApplicable` is set. -/
def addInvoiceContent_gstAmount (amount : ℚ) : ℤ := jsRound (amount * (18/100))

/-- C3: for every (amount, gstApplicable, tds), the PDF path and the JSON
preview path compute the same total, equal to
`amount + (gst ? round(amount*0.18) : 0) - (tds ? round(amount*0.10) : 0)`,
and the per-line TDS and GST figures agree whenever they are printed. -/
theorem claim_C3 :
    ∀ (amount : ℚ) (gstApplicable tds : Bool) (cn : String) (now : ℕ) (ds : String),
      (getInvoicePreview cn amount gstApplicable tds now ds).totalAmount
          = addInvoiceContent_totalAmount amount gstApplicable tds ∧
      addInvoiceContent_totalAmount amount gstApplicable tds
          = amount + (if gstApplicable then (jsRound (amount * (18/100)) : ℚ) else 0)
              - (if tds then (jsRound (amount * (10/100)) : ℚ) else 0) ∧
      (tds = true →
        (getInvoicePreview cn amount gstApplicable tds now ds).tdsAmount
          = addInvoiceContent_tdsAmount amount) ∧
      (gstApplicable = true →
        (getInvoicePreview cn amount gstApplicable tds now ds).gstAmount
          = addInvoiceContent_gstAmount amount) := by
  intro amount gstApplicable tds cn now ds
  cases gstApplicable <;> cases tds <;>
    refine ⟨rfl, ?_, ?_, ?_⟩ <;>
    simp [getInvoicePreview, addInvoiceContent_totalAmount,
      addInvoiceContent_tdsAmount, addInvoiceContent_gstAmount]

/-- Witness for C3 at amount 50000 with both flags set. -/
theorem claim_C3_witness :
    (getInvoicePreview "Client" 50000 true true 0 "").totalAmount
        = addInvoiceContent_totalAmount 50000 true true ∧
    (getInvoicePreview "Client" 50000 true true 0 "").tdsAmount
        = addInvoiceContent_tdsAmount 50000 ∧
    (getInvoicePreview "Client" 50000 true true 0 "").gstAmount
        = addInvoiceContent_gstAmount 50000 :=
  ⟨(claim_C3 50000 true true "Client" 0 "").1,
   (claim_C3 50000 true true "Client" 0 "").2.2.1 rfl,
   (claim_C3 50000 true true "Client" 0 "").2.2.2 rfl⟩

/-- C6: for every positive amount the preview computes
`basicAmount = amount`, `tdsAmount = round(amount*0.10)` when the TDS
flag is set (else 0), `gstAmount = round(amount*0.18)` when GST applies
(else 0), and `totalAmount = amount + gstAmount - tdsAmount`; at
amount 50000 with both flags set this is 5000, 9000 and 54000. -/
theorem claim_C6 :
    (∀ (amount : ℚ) (gstApplicable tds : Bool) (cn : String) (now : ℕ) (ds : String),
      0 < amount →
        (getInvoicePreview cn amount gstApplicable tds now ds).basicAmount = amount ∧
        (getInvoicePreview cn amount gstApplicable tds now ds).tdsAmount
            = (if tds then jsRound (amount * (10/100)) else 0) ∧
        (getInvoicePreview cn amount gstApplicable tds now ds).gstAmount
            = (if gstApplicable then jsRound (amount * (18/100)) else 0) ∧
        (getInvoicePreview cn amount gstApplicable tds now ds).totalAmount
            = amount
              + (if gstApplicable then (jsRound (amount * (18/100)) : ℚ) else 0)
              - (if tds then (jsRound (amount * (10/100)) : ℚ) else 0)) ∧
    (getInvoicePreview "Client" 50000 true true 0 "").tdsAmount = 5000 ∧
    (getInvoicePreview "Client" 50000 true true 0 "").gstAmount = 9000 ∧
    (getInvoicePreview "Client" 50000 true true 0 "").totalAmount = 54000 := by
  refine ⟨?_, ?_, ?_, ?_⟩
  · intro amount gstApplicable tds cn now ds _
    refine ⟨rfl, rfl, rfl, ?_⟩
    cases gstApplicable <;> cases tds <;>
      simp [getInvoicePreview]
  · norm_num [getInvoicePreview, jsRound]
  · norm_num [getInvoicePreview, jsRound]
  · norm_num [getInvoicePreview, jsRound]

/-- Witness for C6 at amount 50000 with both flags set. -/
theorem claim_C6_witness :
    (0:ℚ) < 50000 ∧
    (getInvoicePreview "Client" 50000 true true 0 "").basicAmount = 50000 ∧
    (getInvoicePreview "Client" 50000 true true 0 "").tdsAmount
        = (if true then jsRound ((50000:ℚ) * (10/100)) else 0) :=
  ⟨by norm_num,
   (claim_C6.1 50000 true true "Client" 0 "" (by norm_num)).1,
   (claim_C6.1 50000 true true "Client" 0 "" (by norm_num)).2.1⟩

/-- The pre-cess old-regime slab expression of
`TaxController.getTaxRegimeComparison` (the value of the mutable
`oldRegimeTax` variable before the cess line). -/
def oldRegimePre (taxableIncome : ℚ) : ℚ :=
  if taxableIncome ≤ 250000 then 0
  else if taxableIncome ≤ 500000 then (taxableIncome - 250000) * (5/100)
  else if taxableIncome ≤ 1000000 then 12500 + (taxableIncome - 500000) * (20/100)
  else 112500 + (taxableIncome - 1000000) * (30/100)

/-- The comparison object assembled by `getTaxRegimeComparison`
(the display-only `effectiveRate` strings are not modelled). -/
structure RegimeComparison where
  income : ℚ
  newRegimeTax : ℤ
  oldRegimeTax : ℤ
  recommended : String
  savings : ℤ
  deriving DecidableEq

/-- `TaxController.getTaxRegimeComparison`: new-regime tax via
`calculateIncomeTax`, old-regime tax via a 50000 standard deduction, the
broader slabs and a 4% cess, recommendation by comparing the two. -/
def getTaxRegimeComparison (income : ℚ) : RegimeComparison :=
  let newRegimeTax := calculateIncomeTax income
  let taxableIncome := max 0 (income - 50000)
  let oldRegimeTax := jsRound (oldRegimePre taxableIncome * (104/100))
  { income := income
    newRegimeTax := newRegimeTax
    oldRegimeTax := oldRegimeTax
    recommended := if newRegimeTax ≤ oldRegimeTax then "New Regime" else "Old Regime"
    savings := |newRegimeTax - oldRegimeTax| }

/-- The spec's per-band reading of the old-regime slabs: marginal rates
0/5%/20%/30% applied to the portion of taxable income in each band. -/
def oldSlabTaxSpec (x : ℚ) : ℚ :=
  (5/100) * slabPortion x 250000 500000
  + (20/100) * slabPortion x 500000 1000000
  + (30/100) * max (x - 1000000) 0

theorem oldRegimePre_eq_spec (x : ℚ) : oldRegimePre x = oldSlabTaxSpec x := by
  unfold oldRegimePre oldSlabTaxSpec
  split_ifs with h1 h2 h3
  · rw [slabPortion_of_le (by linarith) (by norm_num),
        slabPortion_of_le (by linarith) (by norm_num),
        max_eq_right (by linarith)]
    ring
  · rw [slabPortion_of_mem (by linarith) (by linarith),
        slabPortion_of_le (by linarith) (by norm_num),
        max_eq_right (by linarith)]
    ring
  · rw [slabPortion_of_ge (by linarith) (by norm_num),
        slabPortion_of_mem (by linarith) (by linarith),
        max_eq_right (by linarith)]
    ring
  · rw [slabPortion_of_ge (by linarith) (by norm_num),
        slabPortion_of_ge (by linarith) (by norm_num),
        max_eq_left (by linarith)]
    ring

/-- C8: the regime comparison subtracts a flat 50000 standard deduction
for the old regime, applies the 0/5%/20%/30% bands, multiplies by the
1.04 cess and rounds; it recommends "New Regime" exactly when the
new-regime tax is at most the old-regime tax, reports the absolute
difference as savings, and at income 800000 yields 45000 / 65000 /
"New Regime" / 20000. -/
theorem claim_C8 :
    (∀ income : ℚ, 0 < income →
      (getTaxRegimeComparison income).newRegimeTax = calculateIncomeTax income ∧
      (getTaxRegimeComparison income).oldRegimeTax
          = jsRound (oldSlabTaxSpec (max 0 (income - 50000)) * (104/100)) ∧
      ((getTaxRegimeComparison income).recommended = "New Regime"
          ↔ calculateIncomeTax income ≤ (getTaxRegimeComparison income).oldRegimeTax) ∧
      (getTaxRegimeComparison income).savings
          = |calculateIncomeTax income - (getTaxRegimeComparison income).oldRegimeTax|) ∧
    (getTaxRegimeComparison 800000).newRegimeTax = 45000 ∧
    (getTaxRegimeComparison 800000).oldRegimeTax = 65000 ∧
    (getTaxRegimeComparison 800000).recommended = "New Regime" ∧
    (getTaxRegimeComparison 800000).savings = 20000 := by
  refine ⟨?_, ?_, ?_, ?_, ?_⟩
  · intro income _
    refine ⟨rfl, by rw [getTaxRegimeComparison, oldRegimePre_eq_spec], ?_, rfl⟩
    simp only [getTaxRegimeComparison]
    split_ifs with h
    · simp only [h, iff_true]
    · simp only [h, iff_false]
      intro hc
      exact absurd hc (by decide)
  · norm_num [getTaxRegimeComparison, calculateIncomeTax, incomeTaxPre,
      oldRegimePre, jsRound]
  · norm_num [getTaxRegimeComparison, calculateIncomeTax, incomeTaxPre,
      oldRegimePre, jsRound]
  · norm_num [getTaxRegimeComparison, calculateIncomeTax, incomeTaxPre,
      oldRegimePre, jsRound]
  · norm_num [getTaxRegimeComparison, calculateIncomeTax, incomeTaxPre,
      oldRegimePre, jsRound]

/-- Witness for C8 at income 800000. -/
theorem claim_C8_witness :
    (0:ℚ) < 800000 ∧
    (getTaxRegimeComparison 800000).oldRegimeTax
        = jsRound (oldSlabTaxSpec (max 0 ((800000:ℚ) - 50000)) * (104/100)) :=
  ⟨by norm_num, (claim_C8.1 800000 (by norm_num)).2.1⟩

/-- An `IncomeRecord` as stored by the income model: `clientName`,
`amount`, `date`, `tdsDeducted`, `gstApplicable`, `notes`. -/
structure IncomeRecord where
  clientName : String
  amount : ℚ
  date : String
  tdsDeducted : Bool
  gstApplicable : Bool
  notes : String
  deriving DecidableEq

/-- The slice of the user model that `TaxService.calculateTax` reads. -/
structure UserRecord where
  gstRegistered : Bool
  deriving DecidableEq

/-- One entry of the `incomeBreakdown` array of the tax summary. -/
structure IncomeBreakdownEntry where
  clientName : String
  amount : ℚ
  date : String
  tdsDeducted : Bool
  gstApplicable : Bool
  deriving DecidableEq

/-- The derived tax summary returned by `TaxService.calculateTax`. -/
structure TaxSummary where
  totalIncome : ℚ
  gstRequired : Bool
  tdsCollected : ℤ
  incomeTax : ℤ
  finalTaxPayable : ℤ
  advanceTaxDue : ℤ
  nextAdvanceTaxDue : String
  incomeBreakdown : List IncomeBreakdownEntry
  deriving DecidableEq

/-- `TaxService.calculateTax`: the database reads (`User.findById`,
`Income.find`) and the current date are passed in as arguments. -/
def calculateTax (user : UserRecord) (incomes : List IncomeRecord)
    (currentMonth currentYear : ℕ) : TaxSummary :=
  let totalIncome := (incomes.map IncomeRecord.amount).sum
  let tdsCollected :=
    ((incomes.filter IncomeRecord.tdsDeducted).map (fun i => applyTDS i.amount)).sum
  let gstRequired := user.gstRegistered && checkGSTThreshold totalIncome
  let incomeTax := calculateIncomeTax totalIncome
  let advanceTaxInfo := getAdvanceTaxDue currentMonth currentYear (incomeTax : ℚ)
  let finalTaxPayable := max 0 (incomeTax - tdsCollected)
  { totalIncome := totalIncome
    gstRequired := gstRequired
    tdsCollected := tdsCollected
    incomeTax := incomeTax
    finalTaxPayable := finalTaxPayable
    advanceTaxDue := advanceTaxInfo.amountDue
    nextAdvanceTaxDue := advanceTaxInfo.nextDueDate
    incomeBreakdown := incomes.map fun i =>
      ⟨i.clientName, i.amount, i.date, i.tdsDeducted, i.gstApplicable⟩ }

/-- C9: for every user and income list, the summary satisfies
`totalIncome = Σ amounts`, `incomeTax = calculateIncomeTax totalIncome`,
`tdsCollected = Σ round(amount*0.10)` over exactly the records with the
`tdsDeducted` flag (recomputed, not a stored figure), and
`finalTaxPayable = max 0 (incomeTax - tdsCollected)`. -/
theorem claim_C9 :
    ∀ (user : UserRecord) (incomes : List IncomeRecord) (m y : ℕ),
      (calculateTax user incomes m y).totalIncome
          = (incomes.map IncomeRecord.amount).sum ∧
      (calculateTax user incomes m y).incomeTax
          = calculateIncomeTax ((incomes.map IncomeRecord.amount).sum) ∧
      (calculateTax user incomes m y).tdsCollected
          = ((incomes.filter IncomeRecord.tdsDeducted).map
              (fun i => jsRound (i.amount * (10/100)))).sum ∧
      (calculateTax user incomes m y).finalTaxPayable
          = max 0 ((calculateTax user incomes m y).incomeTax
              - (calculateTax user incomes m y).tdsCollected) :=
  fun _ _ _ _ => ⟨rfl, rfl, rfl, rfl⟩

/-- C10: `checkGSTThreshold x` holds iff x > 2000000 (false at exactly
2000000), and `gstRequired` is the conjunction of the user's
`gstRegistered` flag with the threshold check on total income, so an
unregistered user never gets `gstRequired = true`. -/
theorem claim_C10 :
    (∀ x : ℚ, checkGSTThreshold x = true ↔ 2000000 < x) ∧
    checkGSTThreshold 2000000 = false ∧
    (∀ (user : UserRecord) (incomes : List IncomeRecord) (m y : ℕ),
      (calculateTax user incomes m y).gstRequired
          = (user.gstRegistered
              && checkGSTThreshold ((calculateTax user incomes m y).totalIncome)) ∧
      (user.gstRegistered = false →
        (calculateTax user incomes m y).gstRequired = false)) := by
  refine ⟨?_, ?_, ?_⟩
  · intro x
    simp [checkGSTThreshold]
  · simp [checkGSTThreshold]
  · intro user incomes m y
    refine ⟨rfl, ?_⟩
    intro h
    simp [calculateTax, h]

/-- Witness for C10 with an unregistered user and an empty income list. -/
theorem claim_C10_witness :
    (calculateTax ⟨false⟩ [] 1 2025).gstRequired
        = (false && checkGSTThreshold ((calculateTax ⟨false⟩ [] 1 2025).totalIncome)) ∧
    (calculateTax ⟨false⟩ [] 1 2025).gstRequired = false :=
  ⟨(claim_C10.2.2 ⟨false⟩ [] 1 2025).1,
   (claim_C10.2.2 ⟨false⟩ [] 1 2025).2 rfl⟩

end TechTresses
